import Mathlib

/-!
Shallow embedding of the ticket-inventory ledger of the online event
ticket booking backend.  The embedded code is the three registration
routes of src/routes/registrationRoutes.js (POST /api/registrations,
PUT /api/registrations/:id/payment, PUT /api/registrations/:id/cancel)
over the Event and Registration documents of src/models/Event.js and
the Registration model.  JavaScript numbers are modelled as Int (all
arithmetic in the routes is integer addition/subtraction/multiplication
within the exact range).  Fields that the ledger never reads or writes
(qrCode, paymentIntentId, transactionId, attendeeInfo, check-in data,
event title/dates/..) are omitted; object ids are Nat.  HTTP-level
authorization checks are out of scope per the spec (the ledger is
authorization-agnostic) and the model works on a single event, so the
Event.findById lookups always succeed.
-/

namespace TicketBooking

/-- A ticket tier of an event: ticketTypeSchema in src/models/Event.js
(name, price, quantity, sold; description omitted). -/
structure TicketType where
  name : String
  price : Int
  quantity : Int
  sold : Int
deriving DecidableEq

/-- The analytics subdocument of eventSchema (views, totalTicketsSold,
totalRevenue). -/
structure Analytics where
  views : Int
  totalTicketsSold : Int
  totalRevenue : Int
deriving DecidableEq

/-- The ledger-relevant part of an Event document: its ticket tiers,
its attendees (Registration ids) and its analytics counters. -/
structure Event where
  ticketTypes : List TicketType
  attendees : List Nat
  analytics : Analytics
deriving DecidableEq

/-- registrationSchema.paymentStatus enum. -/
inductive PaymentStatus
  | pending
  | completed
  | failed
  | refunded
deriving DecidableEq

/-- registrationSchema.status enum. -/
inductive RegStatus
  | active
  | cancelled
  | transferred
deriving DecidableEq

/-- One snapshotted line of a registration: ticketSchema in the
Registration model (ticketType name, unit price snapshot, quantity). -/
structure TicketLine where
  ticketType : String
  price : Int
  quantity : Int
deriving DecidableEq

/-- The ledger-relevant part of a Registration document. -/
structure Registration where
  id : Nat
  tickets : List TicketLine
  totalAmount : Int
  paymentStatus : PaymentStatus
  status : RegStatus
deriving DecidableEq

/-- One requested line in the body of POST /api/registrations
(tickets[i] = \x7bticketType, quantity\x7d). -/
structure ReqTicket where
  ticketType : String
  quantity : Int
deriving DecidableEq

/-- The typed errors named by the spec.  alreadyCompleted is listed in
the spec's error-kind table; whether any route actually produces it is
settled by the theorems below. -/
inductive LedgerError
  | registrationNotFound
  | unknownTicketType (name : String)
  | insufficientInventory (name : String)
  | alreadyCancelled
  | alreadyCompleted
deriving DecidableEq

/-- event.ticketTypes.find(tt => tt.name === name): the first tier with
the given name, if any. -/
def findTier (name : String) : List TicketType → Option TicketType
  | [] => none
  | tt :: rest => if tt.name = name then some tt else findTier name rest

/-- The availability-validation and pricing loop of POST
/api/registrations: for each requested line, look the tier up by name
(error on absence), check quantity - sold >= requested (error
otherwise), and accumulate totalAmount += price * quantity.  The source
builds the priced snapshot lines afterwards with a second find on the
same ticketTypes array; since validation just established that every
find succeeds, building the lines inside the same recursion is the same
function. -/
def validateAndPrice (tiers : List TicketType) :
    List ReqTicket → Except LedgerError (List TicketLine × Int)
  | [] => Except.ok ([], 0)
  | t :: ts =>
    match findTier t.ticketType tiers with
    | none => Except.error (LedgerError.unknownTicketType t.ticketType)
    | some tt =>
      if tt.quantity - tt.sold < t.quantity then
        Except.error (LedgerError.insufficientInventory t.ticketType)
      else
        match validateAndPrice tiers ts with
        | Except.error e => Except.error e
        | Except.ok (lines, total) =>
          Except.ok
            ({ ticketType := t.ticketType, price := tt.price, quantity := t.quantity } :: lines,
             tt.price * t.quantity + total)

/-- The single mutation both sold-count loops perform: find the first
tier whose name matches and add delta to its sold count; if no tier
matches, the if (ticketType) guard makes the line a silent no-op. -/
def updateSold (name : String) (delta : Int) : List TicketType → List TicketType
  | [] => []
  | tt :: rest =>
    if tt.name = name then { tt with sold := tt.sold + delta } :: rest
    else tt :: updateSold name delta rest

/-- The sold-increment loop of PUT /api/registrations/:id/payment:
for each snapshotted ticket line, ticketType.sold += ticket.quantity. -/
def commitSold (tickets : List TicketLine) (tiers : List TicketType) : List TicketType :=
  tickets.foldl (fun acc t => updateSold t.ticketType t.quantity acc) tiers

/-- The sold-decrement loop of PUT /api/registrations/:id/cancel:
for each snapshotted ticket line, ticketType.sold -= ticket.quantity. -/
def releaseSold (tickets : List TicketLine) (tiers : List TicketType) : List TicketType :=
  tickets.foldl (fun acc t => updateSold t.ticketType (-t.quantity) acc) tiers

/-- registration.tickets.reduce((sum, t) => sum + t.quantity, 0). -/
def totalTickets (r : Registration) : Int :=
  r.tickets.foldl (fun sum t => sum + t.quantity) 0

/-- Registration.findById on the registration collection: the first
document with the given id, if any. -/
def findReg (rid : Nat) : List Registration → Option Registration
  | [] => none
  | r :: rest => if r.id = rid then some r else findReg rid rest

/-- registration.save(): persist the updated document in place (the
document with the same id is replaced by the new version). -/
def saveReg (r : Registration) : List Registration → List Registration
  | [] => []
  | x :: xs => (if x.id = r.id then r else x) :: saveReg r xs

/-- The Event mutation performed by PUT /api/registrations/:id/payment:
analytics.totalTicketsSold += totalTickets, analytics.totalRevenue +=
registration.totalAmount, attendees.push(registration id), and the
per-tier sold increments. -/
def commitEventUpdate (e : Event) (r : Registration) : Event :=
  { e with
    analytics :=
      { e.analytics with
        totalTicketsSold := e.analytics.totalTicketsSold + totalTickets r
        totalRevenue := e.analytics.totalRevenue + r.totalAmount }
    attendees := e.attendees ++ [r.id]
    ticketTypes := commitSold r.tickets e.ticketTypes }

/-- The Event mutation performed by PUT /api/registrations/:id/cancel:
analytics.totalTicketsSold -= totalTickets, analytics.totalRevenue -=
registration.totalAmount, attendees.filter(a => a !== registration id),
and the per-tier sold decrements. -/
def releaseEventUpdate (e : Event) (r : Registration) : Event :=
  { e with
    analytics :=
      { e.analytics with
        totalTicketsSold := e.analytics.totalTicketsSold - totalTickets r
        totalRevenue := e.analytics.totalRevenue - r.totalAmount }
    attendees := e.attendees.filter (fun a => a ≠ r.id)
    ticketTypes := releaseSold r.tickets e.ticketTypes }

/-- The persisted state the three registration routes act on: the one
Event document, the Registration collection, and the id the next
Registration.create receives. -/
structure LedgerState where
  event : Event
  regs : List Registration
  nextId : Nat
deriving DecidableEq

/-- POST /api/registrations: validate availability and price the lines
against the current tiers; on success create a Registration with
paymentStatus pending (and default status active).  No event.save
happens on this route. -/
def reserve (st : LedgerState) (tickets : List ReqTicket) :
    Except LedgerError LedgerState :=
  match validateAndPrice st.event.ticketTypes tickets with
  | Except.error e => Except.error e
  | Except.ok (lines, totalAmount) =>
    Except.ok
      { st with
        regs := st.regs ++
          [{ id := st.nextId
             tickets := lines
             totalAmount := totalAmount
             paymentStatus := PaymentStatus.pending
             status := RegStatus.active }]
        nextId := st.nextId + 1 }

/-- PUT /api/registrations/:id/payment: look the registration up, set
paymentStatus = completed, save it, then apply commitEventUpdate to the
event and save that.  The source performs no check of the current
paymentStatus before doing so. -/
def commit (st : LedgerState) (rid : Nat) : Except LedgerError LedgerState :=
  match findReg rid st.regs with
  | none => Except.error LedgerError.registrationNotFound
  | some registration =>
    Except.ok
      { st with
        regs := saveReg { registration with paymentStatus := PaymentStatus.completed } st.regs
        event := commitEventUpdate st.event registration }

/-- PUT /api/registrations/:id/cancel: look the registration up, reject
an already-cancelled one, set status = cancelled, save it, then apply
releaseEventUpdate to the event and save that.  The source performs the
event decrements regardless of the registration's paymentStatus. -/
def release (st : LedgerState) (rid : Nat) : Except LedgerError LedgerState :=
  match findReg rid st.regs with
  | none => Except.error LedgerError.registrationNotFound
  | some registration =>
    if registration.status = RegStatus.cancelled then
      Except.error LedgerError.alreadyCancelled
    else
      Except.ok
        { st with
          regs := saveReg { registration with status := RegStatus.cancelled } st.regs
          event := releaseEventUpdate st.event registration }

/-- The ledger operations: the three registration routes, plus the tier
replacement a PUT /api/events/:id performs when its body carries a new
ticketTypes array (findByIdAndUpdate overwrites the field; it never
touches the Registration collection). -/
inductive Op
  | reserve (tickets : List ReqTicket)
  | commit (rid : Nat)
  | release (rid : Nat)
  | updateTiers (newTiers : List TicketType)
deriving DecidableEq

/-- Dispatch one operation. -/
def step (st : LedgerState) : Op → Except LedgerError LedgerState
  | Op.reserve ts => reserve st ts
  | Op.commit rid => commit st rid
  | Op.release rid => release st rid
  | Op.updateTiers nt =>
    Except.ok { st with event := { st.event with ticketTypes := nt } }

/-- Run one operation against the store; a route that returns an error
responds before performing any write, so the state is unchanged. -/
def apply1 (st : LedgerState) (op : Op) : LedgerState :=
  match step st op with
  | Except.ok st' => st'
  | Except.error _ => st

/-- Run a sequence of operations. -/
def run (st : LedgerState) (ops : List Op) : LedgerState :=
  ops.foldl apply1 st

/-- True when the operation is accepted (the route answers without an
error status). -/
def stepOk (st : LedgerState) (op : Op) : Bool :=
  match step st op with
  | Except.ok _ => true
  | Except.error _ => false

/-- The tier invariant of the spec: 0 <= sold <= quantity for every
tier of the event. -/
def tiersInv (e : Event) : Prop :=
  ∀ tt ∈ e.ticketTypes, 0 ≤ tt.sold ∧ tt.sold ≤ tt.quantity

instance (e : Event) : Decidable (tiersInv e) := by
  unfold tiersInv
  infer_instance

/-- PUT /api/registrations/:id/payment with the two persistence writes
made explicit, in source order: registration.save() runs first; if it
throws, the handler aborts with nothing persisted; otherwise the
registration is durably completed, and only then does event.save()
attempt to persist commitEventUpdate — if that second write fails the
handler aborts leaving the registration completed and the event
untouched.  The two Bool arguments are the outcomes of the two saves. -/
def commitPersist (st : LedgerState) (rid : Nat)
    (regSaveOk eventSaveOk : Bool) : LedgerState :=
  match findReg rid st.regs with
  | none => st
  | some registration =>
    if regSaveOk then
      let stR :=
        { st with
          regs := saveReg { registration with paymentStatus := PaymentStatus.completed } st.regs }
      if eventSaveOk then { stR with event := commitEventUpdate stR.event registration }
      else stR
    else st

/-- True exactly when the route answered with the AlreadyCompleted
error. -/
def rejectedAlreadyCompleted (res : Except LedgerError LedgerState) : Bool :=
  match res with
  | Except.error LedgerError.alreadyCompleted => true
  | _ => false

/-- Sum of the sold counters over all tiers of a tier list. -/
def soldSum (tiers : List TicketType) : Int :=
  (tiers.map TicketType.sold).sum

/-- Sum of the quantities of a list of registration lines (the value
of registration.tickets.reduce((sum, t) => sum + t.quantity, 0)). -/
def totalQty : List TicketLine → Int
  | [] => 0
  | l :: ls => l.quantity + totalQty ls

/-- Sum of the quantities of the lines whose ticketType names an
existing tier: the part of a commit/release that actually reaches a
sold counter (the lines the if (ticketType) guard does not skip). -/
def matchedQty (tiers : List TicketType) : List TicketLine → Int
  | [] => 0
  | l :: ls =>
    (if (findTier l.ticketType tiers).isSome then l.quantity else 0) + matchedQty tiers ls

/-- Boolean validity of one requested line against the tiers: its tier
exists and has enough remaining inventory. -/
def lineOkB (tiers : List TicketType) (t : ReqTicket) : Bool :=
  match findTier t.ticketType tiers with
  | none => false
  | some tt => ! decide (tt.quantity - tt.sold < t.quantity)

/-- Concrete state for C1: one GA tier (price 50, capacity 10) whose 3
sold tickets stem from registration 1, which is already completed. -/
def exC1 : LedgerState :=
  ⟨⟨[⟨"GA", 50, 10, 3⟩], [1], ⟨0, 3, 150⟩⟩,
   [⟨1, [⟨"GA", 50, 3⟩], 150, PaymentStatus.completed, RegStatus.active⟩], 2⟩

/-- Concrete state for C2, C4, C5 and C8: registration 1 reserved 3 GA
tickets (tier capacity 10, nothing sold) but never paid (paymentStatus
pending); no inventory was committed. -/
def exC2 : LedgerState :=
  ⟨⟨[⟨"GA", 50, 10, 0⟩], [], ⟨0, 0, 0⟩⟩,
   [⟨1, [⟨"GA", 50, 3⟩], 150, PaymentStatus.pending, RegStatus.active⟩], 2⟩

/-- Concrete state for C3: a fresh event with one GA tier of capacity 1
and nothing sold, no registrations yet. -/
def exC3 : LedgerState := ⟨⟨[⟨"GA", 50, 1, 0⟩], [], ⟨0, 0, 0⟩⟩, [], 1⟩

/-- Concrete state for C7: one GA tier with 2 of 2 units still
available. -/
def exC7 : LedgerState := ⟨⟨[⟨"GA", 50, 2, 0⟩], [], ⟨0, 0, 0⟩⟩, [], 1⟩

/-- The state POST /api/registrations produces from exC2 when asked for
2 GA tickets: the same event, plus the new pending registration 2. -/
def stC8 : LedgerState :=
  ⟨⟨[⟨"GA", 50, 10, 0⟩], [], ⟨0, 0, 0⟩⟩,
   [⟨1, [⟨"GA", 50, 3⟩], 150, PaymentStatus.pending, RegStatus.active⟩,
    ⟨2, [⟨"GA", 50, 2⟩], 100, PaymentStatus.pending, RegStatus.active⟩], 3⟩

/-- Concrete state for C9: one GA tier with exactly one remaining unit,
and two pending registrations each holding one GA ticket. -/
def exC9 : LedgerState :=
  ⟨⟨[⟨"GA", 50, 1, 0⟩], [], ⟨0, 0, 0⟩⟩,
   [⟨1, [⟨"GA", 50, 1⟩], 50, PaymentStatus.pending, RegStatus.active⟩,
    ⟨2, [⟨"GA", 50, 1⟩], 50, PaymentStatus.pending, RegStatus.active⟩], 3⟩

/-- A registration holding one GA ticket and two tickets of a VIP tier
that no longer exists on the event (renamed or removed after the
registration was created). -/
def exC10reg : Registration :=
  ⟨1, [⟨"GA", 50, 1⟩, ⟨"VIP", 30, 2⟩], 110, PaymentStatus.pending, RegStatus.active⟩

/-- Concrete state for C10: the event only has a GA tier left, while
registration 1's snapshot still names the removed VIP tier. -/
def exC10 : LedgerState :=
  ⟨⟨[⟨"GA", 50, 10, 3⟩], [], ⟨0, 3, 110⟩⟩, [exC10reg], 2⟩

/-- Adding delta to a tier and then adding zero changes nothing. -/
theorem updateSold_zero (n : String) (l : List TicketType) :
    updateSold n 0 l = l := by
  induction l with
  | nil => rfl
  | cons tt rest ih =>
    by_cases h : tt.name = n
    · rw [updateSold, if_pos h, add_zero]
    · simp [updateSold, h, ih]

/-- Two sold-updates of the same tier name compose additively. -/
theorem updateSold_updateSold_same (n : String) (d1 d2 : Int) (l : List TicketType) :
    updateSold n d1 (updateSold n d2 l) = updateSold n (d2 + d1) l := by
  induction l with
  | nil => rfl
  | cons tt rest ih =>
    by_cases h : tt.name = n
    · simp [updateSold, h, add_assoc]
    · simp [updateSold, h, ih]

/-- Sold-updates of (possibly different) tier names commute: each one
only touches the sold field of the first tier with its name resp. is a
no-op, and names are never changed. -/
theorem updateSold_comm (m n : String) (d e : Int) (l : List TicketType) :
    updateSold m d (updateSold n e l) = updateSold n e (updateSold m d l) := by
  induction l with
  | nil => rfl
  | cons tt rest ih =>
    by_cases hn : tt.name = n <;> by_cases hm : tt.name = m
    · have hnm : n = m := hn.symm.trans hm
      subst hnm
      simp [updateSold, hn, add_right_comm]
    · have hnm : ¬ n = m := fun hh => hm (hn.trans hh)
      simp [updateSold, hn, hm, hnm]
    · have hmn : ¬ m = n := fun hh => hn (hm.trans hh)
      simp [updateSold, hn, hm, hmn]
    · simp [updateSold, hn, hm, ih]

/-- A single sold-update commutes past the whole commit loop. -/
theorem updateSold_commitSold (m : String) (d : Int) (ts : List TicketLine)
    (l : List TicketType) :
    updateSold m d (commitSold ts l) = commitSold ts (updateSold m d l) := by
  induction ts generalizing l with
  | nil => rfl
  | cons t rest ih =>
    show updateSold m d (commitSold rest (updateSold t.ticketType t.quantity l)) =
      commitSold rest (updateSold t.ticketType t.quantity (updateSold m d l))
    rw [ih, updateSold_comm]

/-- The cancel loop exactly undoes the payment loop on the tier list:
running the sold-decrements of a ticket snapshot over the result of its
sold-increments gives back the original tiers (lines whose tier is
missing are skipped identically by both loops). -/
theorem releaseSold_commitSold (ts : List TicketLine) (l : List TicketType) :
    releaseSold ts (commitSold ts l) = l := by
  induction ts generalizing l with
  | nil => rfl
  | cons t rest ih =>
    show releaseSold rest
        (updateSold t.ticketType (-t.quantity)
          (commitSold rest (updateSold t.ticketType t.quantity l))) = l
    rw [updateSold_commitSold, updateSold_updateSold_same]
    have hz : t.quantity + -t.quantity = (0 : Int) := by omega
    rw [hz, updateSold_zero]
    exact ih l

/-- A found registration carries the id it was looked up by. -/
theorem findReg_some_id (rid : Nat) (regs : List Registration) (r : Registration)
    (h : findReg rid regs = some r) : r.id = rid := by
  induction regs with
  | nil => simp [findReg] at h
  | cons x xs ih =>
    by_cases hx : x.id = rid
    · simp [findReg, hx] at h
      subst h
      exact hx
    · simp [findReg, hx] at h
      exact ih h

/-- Saving a document with the same id as the one a lookup found makes
the lookup return the saved document. -/
theorem findReg_saveReg (rid : Nat) (regs : List Registration) (r s : Registration)
    (hfind : findReg rid regs = some r) (hid : s.id = r.id) :
    findReg rid (saveReg s regs) = some s := by
  have hrid : r.id = rid := findReg_some_id rid regs r hfind
  induction regs with
  | nil => simp [findReg] at hfind
  | cons x xs ih =>
    by_cases hx : x.id = rid
    · simp [findReg, saveReg, hx, hid, hrid]
    · have hxs : ¬ x.id = s.id := by rw [hid, hrid]; exact hx
      simp [findReg, hx] at hfind
      simp [findReg, saveReg, hx, hxs]
      exact ih hfind

/-- Saving a document whose id differs from the looked-up id leaves
the lookup's result unchanged. -/
theorem findReg_saveReg_ne (rid : Nat) (s : Registration) (regs : List Registration)
    (hne : s.id ≠ rid) :
    findReg rid (saveReg s regs) = findReg rid regs := by
  induction regs with
  | nil => rfl
  | cons x xs ih =>
    by_cases hx : x.id = s.id
    · have hxr : ¬ x.id = rid := by rw [hx]; exact hne
      simp [findReg, saveReg, hx, hne, hxr, ih]
    · by_cases hr : x.id = rid
      · simp only [findReg, saveReg, if_neg hx, if_pos hr]
      · simp [findReg, saveReg, hx, hr, ih]

/-- A lookup that succeeds on a collection still succeeds with the same
result after appending documents. -/
theorem findReg_append (rid : Nat) (regs more : List Registration) (r : Registration)
    (h : findReg rid regs = some r) :
    findReg rid (regs ++ more) = some r := by
  induction regs with
  | nil => simp [findReg] at h
  | cons x xs ih =>
    by_cases hx : x.id = rid
    · simp [findReg, hx] at h
      subst h
      simp [findReg, hx]
    · simp [findReg, hx] at h
      simp [findReg, hx, ih h]

/-- The reduce over ticket quantities, with its accumulator made
explicit. -/
theorem foldl_qty (a : Int) (ls : List TicketLine) :
    ls.foldl (fun sum t => sum + t.quantity) a = a + totalQty ls := by
  induction ls generalizing a with
  | nil => simp [totalQty]
  | cons l ls ih =>
    show ls.foldl (fun sum t => sum + t.quantity) (a + l.quantity) = a + totalQty (l :: ls)
    rw [ih]
    simp [totalQty]
    omega

/-- totalTickets is the sum of the line quantities. -/
theorem totalTickets_eq (r : Registration) : totalTickets r = totalQty r.tickets := by
  show r.tickets.foldl (fun sum t => sum + t.quantity) 0 = totalQty r.tickets
  rw [foldl_qty]
  omega

/-- C1: re-invoking commit on an already-completed registration is NOT
rejected with AlreadyCompleted; the route succeeds and applies all the
increments a second time (sold 3 → 6, totalTicketsSold 3 → 6,
totalRevenue 150 → 300), so commit's increments are not applied at most
once per registration. -/
theorem c1_second_commit_double_increments :
    stepOk exC1 (Op.commit 1) = true ∧
    rejectedAlreadyCompleted (step exC1 (Op.commit 1)) = false ∧
    (apply1 exC1 (Op.commit 1)).event.ticketTypes = [⟨"GA", 50, 10, 6⟩] ∧
    (apply1 exC1 (Op.commit 1)).event.analytics.totalTicketsSold = 6 ∧
    (apply1 exC1 (Op.commit 1)).event.analytics.totalRevenue = 300 := by
  decide

/-- C2: cancelling a registration whose payment was never completed
does NOT leave the counters unchanged: the route decrements them
anyway, driving sold to -3, totalTicketsSold to -3 and totalRevenue to
-150, while setting the registration's status to cancelled. -/
theorem c2_release_pending_decrements_counters :
    stepOk exC2 (Op.release 1) = true ∧
    (apply1 exC2 (Op.release 1)).event.ticketTypes = [⟨"GA", 50, 10, -3⟩] ∧
    (apply1 exC2 (Op.release 1)).event.analytics.totalTicketsSold = -3 ∧
    (apply1 exC2 (Op.release 1)).event.analytics.totalRevenue = -150 ∧
    findReg 1 (apply1 exC2 (Op.release 1)).regs =
      some ⟨1, [⟨"GA", 50, 3⟩], 150, PaymentStatus.pending, RegStatus.cancelled⟩ := by
  decide

/-- C3: the tier invariant 0 ≤ sold ≤ quantity does not survive every
sequence of reserve/commit/release: starting from a state satisfying
it, the sequence reserve 1 GA ticket, commit, commit again leaves
sold = 2 on a tier of capacity 1. -/
theorem c3_tier_invariant_violated :
    tiersInv exC3.event ∧
    (run exC3 [Op.reserve [⟨"GA", 1⟩], Op.commit 1, Op.commit 1]).event.ticketTypes =
      [⟨"GA", 50, 1, 2⟩] ∧
    ¬ tiersInv (run exC3 [Op.reserve [⟨"GA", 1⟩], Op.commit 1, Op.commit 1]).event := by
  decide

/-- C5: the split-write state the claim rules out is reachable: when
registration.save succeeds and the subsequent event.save fails, the
registration is durably marked completed while the event's tiers,
analytics and attendee list are all unchanged. -/
theorem c5_split_write_reachable :
    (commitPersist exC2 1 true false).event = exC2.event ∧
    findReg 1 (commitPersist exC2 1 true false).regs =
      some ⟨1, [⟨"GA", 50, 3⟩], 150, PaymentStatus.completed, RegStatus.active⟩ := by
  decide

/-- C6: reserve never mutates the Event document: whatever the request
and whether it is accepted or rejected, the event (tiers, analytics,
attendees) after POST /api/registrations equals the event before. -/
theorem c6_reserve_never_mutates_event (st : LedgerState) (ts : List ReqTicket) :
    (apply1 st (Op.reserve ts)).event = st.event := by
  cases hv : validateAndPrice st.event.ticketTypes ts with
  | error e => simp [apply1, step, reserve, hv]
  | ok p => cases p with | mk lines total => simp [apply1, step, reserve, hv]

/-- What PUT /api/registrations/:id/payment does once the registration
is found: no guard, save it as completed, apply the event increments. -/
theorem commit_found (st : LedgerState) (rid : Nat) (r : Registration)
    (hfind : findReg rid st.regs = some r) :
    commit st rid = Except.ok
      { st with
        regs := saveReg { r with paymentStatus := PaymentStatus.completed } st.regs
        event := commitEventUpdate st.event r } := by
  unfold commit
  rw [hfind]

/-- What PUT /api/registrations/:id/cancel does once the registration
is found and is not already cancelled: save it as cancelled, apply the
event decrements. -/
theorem release_found (st : LedgerState) (rid : Nat) (r : Registration)
    (hfind : findReg rid st.regs = some r)
    (hst : ¬ r.status = RegStatus.cancelled) :
    release st rid = Except.ok
      { st with
        regs := saveReg { r with status := RegStatus.cancelled } st.regs
        event := releaseEventUpdate st.event r } := by
  unfold release
  simp [hfind, hst]

/-- C4: for a registration in payment state pending and status active,
committing and then immediately releasing restores the event exactly:
every tier's sold counter and the analytics (totalTicketsSold,
totalRevenue, views) return to their pre-commit values, with no partial
and no double reversal. -/
theorem c4_release_after_commit_restores (st : LedgerState) (rid : Nat) (r : Registration)
    (hfind : findReg rid st.regs = some r)
    (_hpay : r.paymentStatus = PaymentStatus.pending)
    (hstat : r.status = RegStatus.active) :
    ∃ st' st'',
      commit st rid = Except.ok st' ∧
      release st' rid = Except.ok st'' ∧
      st''.event.ticketTypes = st.event.ticketTypes ∧
      st''.event.analytics = st.event.analytics := by
  have hst1 : ¬ ({ r with paymentStatus := PaymentStatus.completed } : Registration).status
      = RegStatus.cancelled := by
    simp [hstat]
  have hrel := release_found
    { st with
      regs := saveReg { r with paymentStatus := PaymentStatus.completed } st.regs
      event := commitEventUpdate st.event r }
    rid { r with paymentStatus := PaymentStatus.completed }
    (findReg_saveReg rid st.regs r _ hfind rfl)
    hst1
  refine ⟨_, _, commit_found st rid r hfind, hrel, ?_, ?_⟩
  · show (releaseEventUpdate (commitEventUpdate st.event r)
      { r with paymentStatus := PaymentStatus.completed }).ticketTypes = st.event.ticketTypes
    simp [releaseEventUpdate, commitEventUpdate, releaseSold_commitSold]
  · show (releaseEventUpdate (commitEventUpdate st.event r)
      { r with paymentStatus := PaymentStatus.completed }).analytics = st.event.analytics
    simp [releaseEventUpdate, commitEventUpdate, totalTickets]

/-- Witness for C4: the spec scenario, tier of capacity 10 with sold 0,
a pending registration for 3 tickets at price 50. -/
theorem c4_witness :
    ∃ st' st'',
      commit exC2 1 = Except.ok st' ∧
      release st' 1 = Except.ok st'' ∧
      st''.event.ticketTypes = exC2.event.ticketTypes ∧
      st''.event.analytics = exC2.event.analytics :=
  c4_release_after_commit_restores exC2 1
    ⟨1, [⟨"GA", 50, 3⟩], 150, PaymentStatus.pending, RegStatus.active⟩
    (by decide) rfl rfl

/-- A route that answers with an error has performed no write. -/
theorem apply1_of_error (st : LedgerState) (op : Op) (e : LedgerError)
    (h : step st op = Except.error e) : apply1 st op = st := by
  unfold apply1
  rw [h]

/-- A route that succeeds leaves the state it produced. -/
theorem apply1_of_ok (st st' : LedgerState) (op : Op)
    (h : step st op = Except.ok st') : apply1 st op = st' := by
  unfold apply1
  rw [h]

/-- Requested lines that pass validation do not affect the outcome of
the loop on the remaining lines: the error of the first failing line is
returned. -/
theorem validateAndPrice_append_error (tiers : List TicketType) (pre rest : List ReqTicket)
    (hpre : ∀ u ∈ pre, lineOkB tiers u = true) (e : LedgerError)
    (hrest : validateAndPrice tiers rest = Except.error e) :
    validateAndPrice tiers (pre ++ rest) = Except.error e := by
  induction pre with
  | nil => simpa using hrest
  | cons u pre ih =>
    have hu := hpre u (by simp)
    have ih' := ih (fun v hv => hpre v (by simp [hv]))
    cases hft : findTier u.ticketType tiers with
    | none => simp [lineOkB, hft] at hu
    | some tt =>
      have hav : ¬ (tt.quantity - tt.sold < u.quantity) := by
        simp [lineOkB, hft] at hu
        omega
      simp only [List.cons_append, validateAndPrice, hft, List.append_eq]
      rw [if_neg hav, ih']

/-- C7: during reserve, a line naming no existing tier fails the
request with UnknownTicketType and a line requesting more than
quantity - sold fails it with InsufficientInventory (the first failing
line decides, lines before it being valid); in both cases no
registration is created and the state is untouched. -/
theorem c7_reserve_validation_failures (st : LedgerState) (pre : List ReqTicket)
    (t : ReqTicket) (post : List ReqTicket)
    (hpre : ∀ u ∈ pre, lineOkB st.event.ticketTypes u = true) :
    (findTier t.ticketType st.event.ticketTypes = none →
      step st (Op.reserve (pre ++ t :: post)) =
        Except.error (LedgerError.unknownTicketType t.ticketType) ∧
      apply1 st (Op.reserve (pre ++ t :: post)) = st) ∧
    (∀ tt, findTier t.ticketType st.event.ticketTypes = some tt →
      tt.quantity - tt.sold < t.quantity →
      step st (Op.reserve (pre ++ t :: post)) =
        Except.error (LedgerError.insufficientInventory t.ticketType) ∧
      apply1 st (Op.reserve (pre ++ t :: post)) = st) := by
  constructor
  · intro hnone
    have hv : validateAndPrice st.event.ticketTypes (t :: post) =
        Except.error (LedgerError.unknownTicketType t.ticketType) := by
      simp only [validateAndPrice, hnone]
    have hall := validateAndPrice_append_error st.event.ticketTypes pre (t :: post) hpre _ hv
    have hstep : step st (Op.reserve (pre ++ t :: post)) =
        Except.error (LedgerError.unknownTicketType t.ticketType) := by
      show reserve st (pre ++ t :: post) = _
      unfold reserve
      rw [hall]
    exact ⟨hstep, apply1_of_error st _ _ hstep⟩
  · intro tt hft hlt
    have hv : validateAndPrice st.event.ticketTypes (t :: post) =
        Except.error (LedgerError.insufficientInventory t.ticketType) := by
      simp only [validateAndPrice, hft]
      rw [if_pos hlt]
    have hall := validateAndPrice_append_error st.event.ticketTypes pre (t :: post) hpre _ hv
    have hstep : step st (Op.reserve (pre ++ t :: post)) =
        Except.error (LedgerError.insufficientInventory t.ticketType) := by
      show reserve st (pre ++ t :: post) = _
      unfold reserve
      rw [hall]
    exact ⟨hstep, apply1_of_error st _ _ hstep⟩

/-- Witness for C7: requesting 1 valid GA line and then 1 ticket of the
nonexistent VIP tier is rejected with UnknownTicketType and creates no
registration. -/
theorem c7_witness :
    step exC7 (Op.reserve [⟨"GA", 1⟩, ⟨"VIP", 1⟩]) =
      Except.error (LedgerError.unknownTicketType "VIP") ∧
    apply1 exC7 (Op.reserve [⟨"GA", 1⟩, ⟨"VIP", 1⟩]) = exC7 :=
  (c7_reserve_validation_failures exC7 [⟨"GA", 1⟩] ⟨"VIP", 1⟩ [] (by decide)).1 (by decide)

/-- When validation succeeds, reserve appends exactly one new pending
registration carrying the computed snapshot lines and totalAmount. -/
theorem reserve_ok (st : LedgerState) (ts : List ReqTicket) (lines : List TicketLine)
    (total : Int)
    (h : validateAndPrice st.event.ticketTypes ts = Except.ok (lines, total)) :
    step st (Op.reserve ts) = Except.ok
      { st with
        regs := st.regs ++
          [{ id := st.nextId, tickets := lines, totalAmount := total,
             paymentStatus := PaymentStatus.pending, status := RegStatus.active }]
        nextId := st.nextId + 1 } := by
  show reserve st ts = _
  unfold reserve
  rw [h]

/-- The pricing loop's output: the accumulated total is the sum of
price times quantity over the snapshot lines it builds, and every
line's price is the price of the tier it was looked up from. -/
theorem validateAndPrice_ok (tiers : List TicketType) (ts : List ReqTicket)
    (lines : List TicketLine) (total : Int)
    (h : validateAndPrice tiers ts = Except.ok (lines, total)) :
    total = (lines.map (fun l => l.price * l.quantity)).sum ∧
    ∀ l ∈ lines, ∃ tt, findTier l.ticketType tiers = some tt ∧ l.price = tt.price := by
  induction ts generalizing lines total with
  | nil =>
    simp [validateAndPrice] at h
    obtain ⟨h1, h2⟩ := h
    subst h1
    subst h2
    simp
  | cons t ts ih =>
    cases hft : findTier t.ticketType tiers with
    | none => simp [validateAndPrice, hft] at h
    | some tt =>
      by_cases hlt : tt.quantity - tt.sold < t.quantity
      · simp [validateAndPrice, hft, hlt] at h
      · cases hrec : validateAndPrice tiers ts with
        | error e => simp [validateAndPrice, hft, hlt, hrec] at h
        | ok p =>
          obtain ⟨ls, tot⟩ := p
          simp [validateAndPrice, hft, hlt, hrec] at h
          obtain ⟨hl, htot⟩ := h
          obtain ⟨ihs, ihp⟩ := ih ls tot hrec
          subst hl
          subst htot
          constructor
          · simp [ihs]
          · intro l hlmem
            rcases List.mem_cons.mp hlmem with rfl | hm
            · exact ⟨tt, hft, rfl⟩
            · exact ihp l hm

/-- C8: a registration's totalAmount is computed at creation as the sum
of line price times quantity, each line's price being the price of the
event tier it names at creation time; and no later operation (commit,
release, another reserve, or a tier edit replacing prices) changes the
tickets or totalAmount of any stored registration. -/
theorem c8_totalAmount_snapshot_immutable (st : LedgerState) (ts : List ReqTicket)
    (st' : LedgerState) (op : Op) (rid : Nat) (r : Registration) :
    (step st (Op.reserve ts) = Except.ok st' →
      ∃ nr, st'.regs = st.regs ++ [nr] ∧
        nr.totalAmount = (nr.tickets.map (fun l => l.price * l.quantity)).sum ∧
        ∀ l ∈ nr.tickets, ∃ tt, findTier l.ticketType st.event.ticketTypes = some tt ∧
          l.price = tt.price) ∧
    (findReg rid st.regs = some r →
      ∃ r', findReg rid (apply1 st op).regs = some r' ∧
        r'.tickets = r.tickets ∧ r'.totalAmount = r.totalAmount) := by
  constructor
  · intro hok
    cases hv : validateAndPrice st.event.ticketTypes ts with
    | error e =>
      have hstep : step st (Op.reserve ts) = Except.error e := by
        show reserve st ts = _
        unfold reserve
        rw [hv]
      rw [hstep] at hok
      cases hok
    | ok p =>
      obtain ⟨lines, total⟩ := p
      have hstep := reserve_ok st ts lines total hv
      rw [hstep] at hok
      injection hok with hok
      subst hok
      obtain ⟨hsum, hprice⟩ := validateAndPrice_ok _ _ _ _ hv
      exact ⟨_, rfl, hsum, hprice⟩
  · intro hfindr
    cases op with
    | reserve ts2 =>
      cases hv : validateAndPrice st.event.ticketTypes ts2 with
      | error e =>
        have hstep : step st (Op.reserve ts2) = Except.error e := by
          show reserve st ts2 = _
          unfold reserve
          rw [hv]
        rw [apply1_of_error st _ e hstep]
        exact ⟨r, hfindr, rfl, rfl⟩
      | ok p =>
        obtain ⟨lines, total⟩ := p
        have hstep := reserve_ok st ts2 lines total hv
        refine ⟨r, ?_, rfl, rfl⟩
        rw [apply1_of_ok st _ _ hstep]
        show findReg rid (st.regs ++ _) = some r
        exact findReg_append rid st.regs _ r hfindr
    | commit rid2 =>
      cases hf2 : findReg rid2 st.regs with
      | none =>
        have hstep : step st (Op.commit rid2) = Except.error LedgerError.registrationNotFound := by
          show commit st rid2 = _
          unfold commit
          rw [hf2]
        rw [apply1_of_error st _ _ hstep]
        exact ⟨r, hfindr, rfl, rfl⟩
      | some found =>
        have hstep := commit_found st rid2 found hf2
        by_cases hrid : rid2 = rid
        · subst hrid
          rw [hf2] at hfindr
          injection hfindr with hfr
          subst hfr
          refine ⟨{ found with paymentStatus := PaymentStatus.completed }, ?_, rfl, rfl⟩
          rw [apply1_of_ok st _ (Op.commit rid2) hstep]
          exact findReg_saveReg rid2 st.regs found
            { found with paymentStatus := PaymentStatus.completed } hf2 rfl
        · refine ⟨r, ?_, rfl, rfl⟩
          rw [apply1_of_ok st _ (Op.commit rid2) hstep]
          show findReg rid (saveReg { found with paymentStatus := PaymentStatus.completed } st.regs)
            = some r
          rw [findReg_saveReg_ne]
          · exact hfindr
          · show found.id ≠ rid
            rw [findReg_some_id rid2 st.regs found hf2]
            exact hrid
    | release rid2 =>
      cases hf2 : findReg rid2 st.regs with
      | none =>
        have hstep : step st (Op.release rid2) = Except.error LedgerError.registrationNotFound := by
          show release st rid2 = _
          unfold release
          rw [hf2]
        rw [apply1_of_error st _ _ hstep]
        exact ⟨r, hfindr, rfl, rfl⟩
      | some found =>
        by_cases hcan : found.status = RegStatus.cancelled
        · have hstep : step st (Op.release rid2) = Except.error LedgerError.alreadyCancelled := by
            show release st rid2 = _
            unfold release
            simp [hf2, hcan]
          rw [apply1_of_error st _ _ hstep]
          exact ⟨r, hfindr, rfl, rfl⟩
        · have hstep := release_found st rid2 found hf2 hcan
          by_cases hrid : rid2 = rid
          · subst hrid
            rw [hf2] at hfindr
            injection hfindr with hfr
            subst hfr
            refine ⟨{ found with status := RegStatus.cancelled }, ?_, rfl, rfl⟩
            rw [apply1_of_ok st _ (Op.release rid2) hstep]
            exact findReg_saveReg rid2 st.regs found
              { found with status := RegStatus.cancelled } hf2 rfl
          · refine ⟨r, ?_, rfl, rfl⟩
            rw [apply1_of_ok st _ (Op.release rid2) hstep]
            show findReg rid (saveReg { found with status := RegStatus.cancelled } st.regs)
              = some r
            rw [findReg_saveReg_ne]
            · exact hfindr
            · show found.id ≠ rid
              rw [findReg_some_id rid2 st.regs found hf2]
              exact hrid
    | updateTiers nt =>
      have hstep : step st (Op.updateTiers nt) =
          Except.ok { st with event := { st.event with ticketTypes := nt } } := rfl
      rw [apply1_of_ok st _ _ hstep]
      exact ⟨r, hfindr, rfl, rfl⟩

/-- Witness for C8: reserving 2 GA tickets at price 50 creates a
registration with totalAmount 100 = 50*2 snapshotted from the tier, and
a tier edit wiping all tiers leaves registration 1's lines and
totalAmount untouched. -/
theorem c8_witness :
    (∃ nr, stC8.regs = exC2.regs ++ [nr] ∧
      nr.totalAmount = (nr.tickets.map (fun l => l.price * l.quantity)).sum ∧
      ∀ l ∈ nr.tickets, ∃ tt, findTier l.ticketType exC2.event.ticketTypes = some tt ∧
        l.price = tt.price) ∧
    (∃ r', findReg 1 (apply1 exC2 (Op.updateTiers [])).regs = some r' ∧
      r'.tickets = (⟨1, [⟨"GA", 50, 3⟩], 150, PaymentStatus.pending, RegStatus.active⟩ :
        Registration).tickets ∧
      r'.totalAmount = (⟨1, [⟨"GA", 50, 3⟩], 150, PaymentStatus.pending, RegStatus.active⟩ :
        Registration).totalAmount) :=
  ⟨(c8_totalAmount_snapshot_immutable exC2 [⟨"GA", 2⟩] stC8 (Op.updateTiers []) 1
      ⟨1, [⟨"GA", 50, 3⟩], 150, PaymentStatus.pending, RegStatus.active⟩).1 rfl,
   (c8_totalAmount_snapshot_immutable exC2 [⟨"GA", 2⟩] stC8 (Op.updateTiers []) 1
      ⟨1, [⟨"GA", 50, 3⟩], 150, PaymentStatus.pending, RegStatus.active⟩).2 (by decide)⟩

/-- C9: two commit attempts racing for a tier with one remaining unit
do not serialize: commit performs no availability re-check at all, so
even when the two commits execute one after the other both succeed and
the tier ends with sold = 2 > quantity = 1; neither fails with
InsufficientInventory. -/
theorem c9_both_commits_succeed :
    stepOk exC9 (Op.commit 1) = true ∧
    stepOk (apply1 exC9 (Op.commit 1)) (Op.commit 2) = true ∧
    (run exC9 [Op.commit 1, Op.commit 2]).event.ticketTypes = [⟨"GA", 50, 1, 2⟩] ∧
    ¬ tiersInv (run exC9 [Op.commit 1, Op.commit 2]).event := by
  decide

/-- A sold-update never changes which tier names can be found. -/
theorem findTier_updateSold_isSome (m n : String) (d : Int) (l : List TicketType) :
    (findTier m (updateSold n d l)).isSome = (findTier m l).isSome := by
  induction l with
  | nil => rfl
  | cons tt rest ih =>
    simp only [updateSold]
    by_cases hn : tt.name = n
    · rw [if_pos hn]
      simp only [findTier]
      by_cases hm : tt.name = m
      · rw [if_pos hm, if_pos (show ({ tt with sold := tt.sold + d } : TicketType).name = m from hm)]
        rfl
      · rw [if_neg hm, if_neg (show ¬ ({ tt with sold := tt.sold + d } : TicketType).name = m from hm)]
    · rw [if_neg hn]
      simp only [findTier]
      by_cases hm : tt.name = m
      · rw [if_pos hm, if_pos hm]
      · rw [if_neg hm, if_neg hm]
        exact ih

/-- Effect of one sold-update on the total sold count: d if the tier
exists, nothing otherwise. -/
theorem soldSum_updateSold (n : String) (d : Int) (l : List TicketType) :
    soldSum (updateSold n d l) =
      soldSum l + (if (findTier n l).isSome then d else 0) := by
  induction l with
  | nil => simp [updateSold, findTier, soldSum]
  | cons tt rest ih =>
    by_cases h : tt.name = n
    · simp [updateSold, findTier, h, soldSum]
      ring
    · simp only [soldSum, List.map_cons, List.sum_cons] at ih
      simp [updateSold, findTier, h, soldSum]
      rw [ih]
      ring

/-- Which lines of a snapshot match an existing tier is unaffected by
sold-updates. -/
theorem matchedQty_updateSold (n : String) (d : Int) (tiers : List TicketType)
    (ls : List TicketLine) :
    matchedQty (updateSold n d tiers) ls = matchedQty tiers ls := by
  induction ls with
  | nil => rfl
  | cons l ls ih => simp [matchedQty, ih, findTier_updateSold_isSome]

/-- The commit loop increases the total sold count by exactly the
matched quantity of the snapshot: lines naming a missing tier
contribute nothing. -/
theorem soldSum_commitSold (ls : List TicketLine) (tiers : List TicketType) :
    soldSum (commitSold ls tiers) = soldSum tiers + matchedQty tiers ls := by
  induction ls generalizing tiers with
  | nil => simp [commitSold, matchedQty]
  | cons l ls ih =>
    show soldSum (commitSold ls (updateSold l.ticketType l.quantity tiers)) = _
    rw [ih, soldSum_updateSold, matchedQty_updateSold]
    simp [matchedQty]
    ring

/-- The cancel loop decreases the total sold count by exactly the
matched quantity of the snapshot. -/
theorem soldSum_releaseSold (ls : List TicketLine) (tiers : List TicketType) :
    soldSum (releaseSold ls tiers) = soldSum tiers - matchedQty tiers ls := by
  induction ls generalizing tiers with
  | nil => simp [releaseSold, matchedQty]
  | cons l ls ih =>
    show soldSum (releaseSold ls (updateSold l.ticketType (-l.quantity) tiers)) = _
    rw [ih, soldSum_updateSold, matchedQty_updateSold]
    simp only [matchedQty]
    split_ifs
    · ring
    · ring

/-- The matched quantity never exceeds the total quantity of a
snapshot with nonnegative line quantities. -/
theorem matchedQty_le_totalQty (tiers : List TicketType) (ls : List TicketLine)
    (hpos : ∀ l ∈ ls, 0 ≤ l.quantity) :
    matchedQty tiers ls ≤ totalQty ls := by
  revert hpos
  induction ls with
  | nil =>
    intro _
    simp [matchedQty, totalQty]
  | cons l ls ih =>
    intro hpos
    have h0 := hpos l (List.mem_cons_self l ls)
    have ihh := ih (fun x hx => hpos x (List.mem_cons_of_mem _ hx))
    simp only [matchedQty, totalQty]
    split_ifs
    · omega
    · omega

/-- A line with positive quantity naming a missing tier makes the
matched quantity strictly smaller than the total quantity. -/
theorem matchedQty_lt_totalQty (tiers : List TicketType) (ls : List TicketLine)
    (l0 : TicketLine) (hpos : ∀ l ∈ ls, 0 ≤ l.quantity) (hmem : l0 ∈ ls)
    (hmiss : findTier l0.ticketType tiers = none) (hq : 0 < l0.quantity) :
    matchedQty tiers ls < totalQty ls := by
  revert hpos hmem
  induction ls with
  | nil =>
    intro _ hmem
    cases hmem
  | cons l ls ih =>
    intro hpos hmem
    simp only [matchedQty, totalQty]
    rcases List.mem_cons.mp hmem with heq | hm
    · subst heq
      have hle := matchedQty_le_totalQty tiers ls (fun x hx => hpos x (List.mem_cons_of_mem _ hx))
      simp [hmiss]
      omega
    · have ihh := ih (fun x hx => hpos x (List.mem_cons_of_mem _ hx)) hm
      have h0 := hpos l (List.mem_cons_self l ls)
      split_ifs
      · omega
      · omega

/-- C10: when a snapshot line names a tier that no longer exists on the
event, commit succeeds and applies the full increments to
analytics.totalTicketsSold and totalRevenue while the per-tier sold
loop silently skips the missing line, so the total sold count rises by
strictly less than the analytics counter; release behaves symmetrically
(for a not-yet-cancelled registration).  Analytics and the sum of sold
thus drift apart with no error reported. -/
theorem c10_missing_tier_skews_sold_vs_analytics (st : LedgerState) (rid : Nat)
    (r : Registration) (l0 : TicketLine)
    (hfind : findReg rid st.regs = some r)
    (hpos : ∀ l ∈ r.tickets, 0 ≤ l.quantity)
    (hmem : l0 ∈ r.tickets)
    (hmiss : findTier l0.ticketType st.event.ticketTypes = none)
    (hq : 0 < l0.quantity) :
    (∃ st', commit st rid = Except.ok st' ∧
      st'.event.analytics.totalTicketsSold =
        st.event.analytics.totalTicketsSold + totalTickets r ∧
      st'.event.analytics.totalRevenue =
        st.event.analytics.totalRevenue + r.totalAmount ∧
      soldSum st'.event.ticketTypes < soldSum st.event.ticketTypes + totalTickets r) ∧
    (¬ r.status = RegStatus.cancelled →
      ∃ st'', release st rid = Except.ok st'' ∧
        st''.event.analytics.totalTicketsSold =
          st.event.analytics.totalTicketsSold - totalTickets r ∧
        st''.event.analytics.totalRevenue =
          st.event.analytics.totalRevenue - r.totalAmount ∧
        soldSum st.event.ticketTypes - totalTickets r < soldSum st''.event.ticketTypes) := by
  have hlt := matchedQty_lt_totalQty st.event.ticketTypes r.tickets l0 hpos hmem hmiss hq
  constructor
  · refine ⟨_, commit_found st rid r hfind, rfl, rfl, ?_⟩
    show soldSum (commitSold r.tickets st.event.ticketTypes) < _
    rw [soldSum_commitSold, totalTickets_eq]
    omega
  · intro hcan
    refine ⟨_, release_found st rid r hfind hcan, rfl, rfl, ?_⟩
    show _ < soldSum (releaseSold r.tickets st.event.ticketTypes)
    rw [soldSum_releaseSold, totalTickets_eq]
    omega

/-- Witness for C10: committing registration 1 whose snapshot names the
removed VIP tier succeeds, adds 3 to totalTicketsSold and 110 to
totalRevenue, but increases the sum of sold by strictly less than 3. -/
theorem c10_witness :
    (∃ st', commit exC10 1 = Except.ok st' ∧
      st'.event.analytics.totalTicketsSold =
        exC10.event.analytics.totalTicketsSold + totalTickets exC10reg ∧
      st'.event.analytics.totalRevenue =
        exC10.event.analytics.totalRevenue + exC10reg.totalAmount ∧
      soldSum st'.event.ticketTypes <
        soldSum exC10.event.ticketTypes + totalTickets exC10reg) ∧
    (¬ exC10reg.status = RegStatus.cancelled →
      ∃ st'', release exC10 1 = Except.ok st'' ∧
        st''.event.analytics.totalTicketsSold =
          exC10.event.analytics.totalTicketsSold - totalTickets exC10reg ∧
        st''.event.analytics.totalRevenue =
          exC10.event.analytics.totalRevenue - exC10reg.totalAmount ∧
        soldSum exC10.event.ticketTypes - totalTickets exC10reg <
          soldSum st''.event.ticketTypes) :=
  c10_missing_tier_skews_sold_vs_analytics exC10 1 exC10reg ⟨"VIP", 30, 2⟩
    (by decide) (by decide) (by decide) (by decide) (by decide)

end TicketBooking
